import Mathlib

/-!
Shallow embedding of the request-orchestration core of the
German-voice-llm-tutor backend (`src/backend/app.py`,
`src/backend/whisper_service.py`, `src/backend/tts_service.py`,
`src/backend/ollama_client.py`).

External effects (whisper engine, ollama call, TTS engines, filesystem)
are modelled as explicit outcome parameters carried by an `Env` record;
Python exceptions become `Except String` values, carrying the exception
message.  The handler `voiceChat` mirrors the control flow of the
`voice_chat` endpoint line by line; `Outcome` records, besides the HTTP
response, the observable side effects the claims talk about: whether the
scratch file still exists after the request, which Conversation Record
(if any) was appended, and whether the transcription re-raise branch
(`except Exception as transcription_error: ... raise`) was taken.
-/

namespace Tutor

/-- Outcome of persisting the uploaded audio to the scratch file
(`tempfile.NamedTemporaryFile(delete=False)` + `audio.read()` +
`temp_audio.write`).  `failBeforeCreate` models the temp file itself not
being creatable (no file exists afterwards); `failAfterCreate` models
`audio.read()`/`temp_audio.write` raising once the file already exists on
disk (the `with` block closes but, with `delete=False`, does not remove
it). -/
inductive ScratchOutcome where
  | ok : ScratchOutcome
  | failBeforeCreate : String → ScratchOutcome
  | failAfterCreate : String → ScratchOutcome
deriving DecidableEq, Repr

/-- Which TTS backend a `save_tts_audio` call attempts (`_pyttsx3_save`
is the offline backend, `_edge_tts_save` the networked one). -/
inductive Backend where
  | offline : Backend
  | online : Backend
deriving DecidableEq, Repr

/-- Environment of one `save_tts_audio` call: the module-level
availability flags `PYTTSX3_AVAILABLE` / `EDGE_TTS_AVAILABLE` probed when
the module loads, and the success of each attempted engine call.  `pyOk1` is
the outcome of the pyttsx3 attempt made in the initial
`prefer_offline and PYTTSX3_AVAILABLE` block; `pyOkT` the outcome of a
pyttsx3 attempt made in the later fallback block (a distinct call, so it
may differ). -/
structure TtsEnv where
  pyAvail : Bool
  edgeAvail : Bool
  pyOk1 : Bool
  edgeOk : Bool
  pyOkT : Bool
deriving DecidableEq, Repr

/-- Python `str.strip()` on the character list: drop whitespace from both
ends. -/
def stripChars (l : List Char) : List Char :=
  ((l.dropWhile Char.isWhitespace).reverse.dropWhile Char.isWhitespace).reverse

/-- Python `str.strip()`: the string with leading and trailing whitespace
removed. -/
def pyStrip (s : String) : String :=
  ⟨stripChars s.data⟩

/-- Fallback chain of `save_tts_audio` after the initial prefer-offline
block (tts_service.py lines 73-85): try edge if available; on edge
failure retry pyttsx3 unguarded (its failure propagates) or re-raise; with
edge absent use pyttsx3 if available, else raise
"No TTS engine available".  Returns the list of attempted backends in
order, plus the overall result (`Except.error` = the call raised). -/
def savettsTail (t : TtsEnv) : List Backend × Except String Unit :=
  if t.edgeAvail then
    if t.edgeOk then ([Backend.online], Except.ok ())
    else if t.pyAvail then
      if t.pyOkT then ([Backend.online, Backend.offline], Except.ok ())
      else ([Backend.online, Backend.offline], Except.error "pyttsx3 save failed")
    else ([Backend.online], Except.error "edge tts save failed")
  else if t.pyAvail then
    if t.pyOkT then ([Backend.offline], Except.ok ())
    else ([Backend.offline], Except.error "pyttsx3 save failed")
  else ([], Except.error "No TTS engine available")

/-- `save_tts_audio(text, output_path, voice, prefer_offline)`
(tts_service.py lines 53-85): when `prefer_offline` and pyttsx3 is
available, try the offline engine first and return on success; on its
failure fall into the edge/pyttsx3 fallback chain. -/
def saveTtsAudio (preferOffline : Bool) (t : TtsEnv) : List Backend × Except String Unit :=
  if preferOffline && t.pyAvail then
    if t.pyOk1 then ([Backend.offline], Except.ok ())
    else
      let r := savettsTail t
      (Backend.offline :: r.1, r.2)
  else savettsTail t

/-- `_transcribe_with_library` (whisper_service.py lines 61-114).  The
`engine` argument is the combined outcome of the whisper import, the
file-existence/size checks and `model.transcribe`: `Except.error` when any
of those raised (re-raised wrapped as "Library transcription error: ..."),
`Except.ok raw` with the raw `result["text"]` otherwise.  The function
strips the text and substitutes the sentinel "[Kein Audio erkannt]" when
the stripped text is empty. -/
def transcribeWithLibrary (engine : Except String String) : Except String String :=
  match engine with
  | Except.error e => Except.error ("Library transcription error: " ++ e)
  | Except.ok raw =>
      let transcribed_text := pyStrip raw
      if transcribed_text = "" then Except.ok "[Kein Audio erkannt]"
      else Except.ok transcribed_text

/-- `transcribe_audio` (whisper_service.py lines 6-23): calls
`_transcribe_with_library`; returns its result when truthy, catches any
exception and returns the empty string instead, and returns the empty
string when the result is falsy. -/
def transcribe_audio (engine : Except String String) : String :=
  match transcribeWithLibrary engine with
  | Except.ok result => if result ≠ "" then result else ""
  | Except.error _ => ""

/-- Prompt assembly of app.py line 62:
`f"\x7bsystem_prompt\x7d\n\nTopic: \x7btopic\x7d\nUser: \x7buser_text\x7d\nTutor:"`. -/
def buildFullPrompt (system_prompt topic user_text : String) : String :=
  system_prompt ++ "\n\nTopic: " ++ topic ++ "\nUser: " ++ user_text ++ "\nTutor:"

/-- Fallback reply of app.py line 71, built when `ask_ollama` raised:
`f"Ich habe verstanden: \x27\x7buser_text\x7d\x27. Das ist interessant! (Ollama ist nicht verfügbar)"`. -/
def fallbackReply (user_text : String) : String :=
  "Ich habe verstanden: \x27" ++ user_text ++ "\x27. Das ist interessant! (Ollama ist nicht verfügbar)"

/-- One persisted Conversation Record (the dict written as a JSON line to
`data/history/conversations.jsonl`, app.py lines 88-94). -/
structure ConversationRecord where
  timestamp : String
  topic : String
  user_text : String
  reply_text : String
  tts_file : Option String
deriving DecidableEq, Repr

/-- HTTP response of the `voice_chat` endpoint: either the 200 success
payload (app.py lines 105-110) or a `JSONResponse(status_code, error)`. -/
inductive Response where
  | ok : (user_text : String) → (reply_text : String) →
      (tts_url : Option String) → (topic : String) → Response
  | err : (status : Nat) → (error : String) → Response
deriving DecidableEq, Repr

/-- Status-equivalent code of a response (200 on the success payload). -/
def Response.statusCode : Response → Nat
  | Response.ok _ _ _ _ => 200
  | Response.err s _ => s

/-- Environment of one `voice_chat` request: the nondeterministic
outcomes of each external effect.  `transcription` is the outcome of the
`transcribe_audio(temp_audio_path)` call as the handler sees it
(`Except.error` = the call raised); `gen` is the `ask_ollama` oracle,
indexed by the prompt it receives; `historyOk` is whether the history
append I/O succeeds; `now`/`nowIso` are the timestamp strings produced by
`datetime.now()`. -/
structure Env where
  scratch : ScratchOutcome
  transcription : Except String String
  systemPrompt : String
  gen : String → Except String String
  tts : TtsEnv
  historyOk : Bool
  now : String
  nowIso : String

/-- Observable outcome of one `voice_chat` request: the HTTP response,
whether the scratch file still exists on disk afterwards, the appended
Conversation Record (if any), and whether the handler took its
transcription re-raise branch (app.py lines 38-42). -/
structure Outcome where
  response : Response
  tempExists : Bool
  record : Option ConversationRecord
  transcriptionReraised : Bool
deriving DecidableEq, Repr

/-- Status-equivalent code of the outcome. -/
def Outcome.status (o : Outcome) : Nat :=
  o.response.statusCode

/-- The `voice_chat` handler (app.py lines 18-121), faithful to its
control flow: persist upload to scratch file; call `transcribe_audio`
(on a raise: unlink and re-raise to the outer handler); unlink; 400
short-circuit on a whitespace-only transcript; `ask_ollama` with the
fallback reply on failure; `save_tts_audio` (called with default
`prefer_offline=True`) with `tts_filename`/`tts_url` set to null on
failure; best-effort history append; 200 payload.  The outer
`except Exception` returns status 500 with
`f"Processing failed: \x7bstr(e)\x7d"`. -/
def voiceChat (env : Env) (topic : String) : Outcome :=
  match env.scratch with
  | ScratchOutcome.failBeforeCreate e =>
      { response := Response.err 500 ("Processing failed: " ++ e),
        tempExists := false, record := none, transcriptionReraised := false }
  | ScratchOutcome.failAfterCreate e =>
      { response := Response.err 500 ("Processing failed: " ++ e),
        tempExists := true, record := none, transcriptionReraised := false }
  | ScratchOutcome.ok =>
    match env.transcription with
    | Except.error e =>
        { response := Response.err 500 ("Processing failed: " ++ e),
          tempExists := false, record := none, transcriptionReraised := true }
    | Except.ok user_text =>
      if pyStrip user_text = "" then
        { response := Response.err 400 "Could not transcribe audio",
          tempExists := false, record := none, transcriptionReraised := false }
      else
        let reply_text :=
          match env.gen (buildFullPrompt env.systemPrompt topic user_text) with
          | Except.ok r => r
          | Except.error _ => fallbackReply user_text
        let ttsResult := (saveTtsAudio true env.tts).2
        let tts_filename : Option String :=
          match ttsResult with
          | Except.ok _ => some ("reply_" ++ env.now ++ ".wav")
          | Except.error _ => none
        let tts_url : Option String :=
          match ttsResult with
          | Except.ok _ => some ("/audio/reply_" ++ env.now ++ ".wav")
          | Except.error _ => none
        let record : Option ConversationRecord :=
          if env.historyOk then
            some { timestamp := env.nowIso, topic := topic, user_text := user_text,
                   reply_text := reply_text, tts_file := tts_filename }
          else none
        { response := Response.ok user_text reply_text tts_url topic,
          tempExists := false, record := record, transcriptionReraised := false }

/-- The `get_history` endpoint body (app.py lines 123-139) on the lines
of `conversations.jsonl`: Python slice `lines[-limit:]` followed by the
blank-line filter and per-line `strip`.  For `limit > 0` the slice keeps
the last `limit` lines; `lines[-0:]` is the whole list; for negative
`limit` the slice `lines[(-limit):]` drops the first `-limit` lines. -/
def get_history (lines : List String) (limit : Int) : List String :=
  let sliced := lines.drop (if 0 < limit then lines.length - limit.toNat else (-limit).toNat)
  sliced.filterMap (fun line => if pyStrip line = "" then none else some (pyStrip line))

/-- A fully working TTS environment: both engines available, every
attempt succeeds. -/
def ttsAllOk : TtsEnv :=
  { pyAvail := true, edgeAvail := true, pyOk1 := true, edgeOk := true, pyOkT := true }

/-- Baseline request environment for concrete evaluations: every stage
succeeds, transcription yields "Hallo". -/
def envBase : Env :=
  { scratch := ScratchOutcome.ok,
    transcription := Except.ok "Hallo",
    systemPrompt := "You are a helpful German tutor. Respond in German.",
    gen := fun _ => Except.ok "Was moechtest du kaufen?",
    tts := ttsAllOk,
    historyOk := true,
    now := "20240101_000000",
    nowIso := "2024-01-01T00:00:00" }

/-- Request environment whose transcription engine raised a decode
error, so the `transcribe_audio` call returned the empty string. -/
def envDecode : Env :=
  { envBase with transcription := Except.ok (transcribe_audio (Except.error "decode error")) }

end Tutor

namespace Tutor

/-- Helper: the blank-line filter plus per-line strip of `get_history` is
the identity on a list of already-stripped, non-blank lines. -/
lemma filterMap_strip_id (l : List String) (h : ∀ x ∈ l, pyStrip x = x ∧ x ≠ "") :
    l.filterMap (fun line => if pyStrip line = "" then none else some (pyStrip line)) = l := by
  induction l with
  | nil => simp
  | cons a l ih =>
      obtain ⟨ha1, ha2⟩ := h a (by simp)
      simp [List.filterMap_cons, ha1, ha2, ih (fun x hx => h x (by simp [hx]))]

/-- Claim C1, counterexample: when the engine recognizes no speech,
`_transcribe_with_library` returns the sentinel "[Kein Audio erkannt]",
which is a non-empty string, so the `not user_text.strip()` check in the
handler does not fire: the endpoint returns status 200 (not 400) and a
Conversation Record IS appended.  This refutes the sentinel half of the
claim. -/
theorem c1_counterexample :
    transcribe_audio (Except.ok "") = "[Kein Audio erkannt]" ∧
    (voiceChat { envBase with transcription := Except.ok (transcribe_audio (Except.ok "")) }
      "general conversation").status = 200 ∧
    ((voiceChat { envBase with transcription := Except.ok (transcribe_audio (Except.ok "")) }
      "general conversation").record).isSome = true := by
  refine ⟨by decide, by decide, by decide⟩

/-- Claim C1 (amended): for every request in which the transcription
stage returns a result that strips to the empty string, the endpoint
returns status 400 with body error "Could not transcribe audio" and no
Conversation Record is appended.  (The sentinel "[Kein Audio erkannt]"
is non-empty and is treated as ordinary transcribed text instead.) -/
theorem c1_amended (env : Env) (topic t : String)
    (hs : env.scratch = ScratchOutcome.ok)
    (ht : env.transcription = Except.ok t)
    (he : pyStrip t = "") :
    (voiceChat env topic).response = Response.err 400 "Could not transcribe audio" ∧
    (voiceChat env topic).record = none := by
  simp [voiceChat, hs, ht, he]

/-- Witness for c1_amended at a concrete request whose transcription
returned the empty string. -/
theorem c1_witness :
    ({ envBase with transcription := Except.ok "" } : Env).scratch = ScratchOutcome.ok ∧
    ({ envBase with transcription := Except.ok "" } : Env).transcription = Except.ok "" ∧
    pyStrip "" = "" ∧
    ((voiceChat { envBase with transcription := Except.ok "" } "general conversation").response =
        Response.err 400 "Could not transcribe audio" ∧
      (voiceChat { envBase with transcription := Except.ok "" } "general conversation").record =
        none) :=
  ⟨rfl, rfl, rfl,
   c1_amended { envBase with transcription := Except.ok "" } "general conversation" "" rfl rfl rfl⟩

/-- Claim C2, counterexample: when the history append itself fails (its
`except` branch only logs and continues), no Conversation Record is
written even though transcription succeeded with non-empty text — the
"only if" direction of the claimed biconditional fails. -/
theorem c2_counterexample :
    ({ envBase with historyOk := false } : Env).transcription = Except.ok "Hallo" ∧
    pyStrip "Hallo" ≠ "" ∧
    (voiceChat { envBase with historyOk := false } "shopping").status = 200 ∧
    (voiceChat { envBase with historyOk := false } "shopping").record = none := by
  refine ⟨rfl, by decide, by decide, by decide⟩

/-- Claim C2 (amended): a Conversation Record is appended if and only if
the scratch write succeeded, transcription returned non-empty text, and
the history-append I/O itself succeeded.  In particular generation and
synthesis failures still produce a record (they only change the
reply_text / tts_file fields), but an append I/O failure suppresses it. -/
theorem c2_amended (env : Env) (topic : String) :
    ((voiceChat env topic).record).isSome = true ↔
      (env.scratch = ScratchOutcome.ok ∧ env.historyOk = true ∧
       ∃ t, env.transcription = Except.ok t ∧ pyStrip t ≠ "") := by
  rcases env with ⟨s, tr, sp, g, tts, h, now, iso⟩
  cases s <;> cases tr <;> simp [voiceChat] <;>
    (try rename_i t) <;> (try by_cases hpt : pyStrip t = "") <;> cases h <;> simp_all [voiceChat]

/-- Claim C3 (confirmed): when transcription yields text that strips
non-empty and the `ask_ollama` call fails, the endpoint still returns
status 200 and reply_text is exactly the deterministic fallback template
with the transcript embedded verbatim. -/
theorem c3 (env : Env) (topic t e : String)
    (hs : env.scratch = ScratchOutcome.ok)
    (ht : env.transcription = Except.ok t)
    (hne : pyStrip t ≠ "")
    (hg : env.gen (buildFullPrompt env.systemPrompt topic t) = Except.error e) :
    (voiceChat env topic).status = 200 ∧
    ∃ u, (voiceChat env topic).response =
      Response.ok t
        ("Ich habe verstanden: \x27" ++ t ++ "\x27. Das ist interessant! (Ollama ist nicht verfügbar)")
        u topic := by
  cases hsv : (saveTtsAudio true env.tts).2 <;>
    simp [voiceChat, Outcome.status, Response.statusCode, fallbackReply,
      hs, ht, hne, hg, hsv, String.append_assoc]

/-- Witness for c3 at a concrete request whose generation call raises a
connection error. -/
theorem c3_witness :
    ({ envBase with gen := fun _ => Except.error "Cannot connect to Ollama" } : Env).scratch =
        ScratchOutcome.ok ∧
    ({ envBase with gen := fun _ => Except.error "Cannot connect to Ollama" } : Env).transcription =
        Except.ok "Hallo" ∧
    pyStrip "Hallo" ≠ "" ∧
    ((voiceChat { envBase with gen := fun _ => Except.error "Cannot connect to Ollama" }
        "shopping").status = 200 ∧
      ∃ u, (voiceChat { envBase with gen := fun _ => Except.error "Cannot connect to Ollama" }
          "shopping").response =
        Response.ok "Hallo"
          ("Ich habe verstanden: \x27" ++ "Hallo" ++
            "\x27. Das ist interessant! (Ollama ist nicht verfügbar)")
          u "shopping") :=
  ⟨rfl, rfl, by decide,
   c3 { envBase with gen := fun _ => Except.error "Cannot connect to Ollama" }
     "shopping" "Hallo" "Cannot connect to Ollama" rfl rfl (by decide) rfl⟩

/-- Claim C4 (confirmed): when transcription yields non-empty text and the
synthesis stage fails (save_tts_audio raises), the endpoint still returns
the 200 payload with tts_url null, and user_text, reply_text and topic are
exactly those of the run in which synthesis succeeds. -/
theorem c4 (env : Env) (topic t m : String)
    (hs : env.scratch = ScratchOutcome.ok)
    (ht : env.transcription = Except.ok t)
    (hne : pyStrip t ≠ "")
    (htts : (saveTtsAudio true env.tts).2 = Except.error m) :
    ∃ rt, (voiceChat env topic).response = Response.ok t rt none topic ∧
      (voiceChat { env with tts := ttsAllOk } topic).response =
        Response.ok t rt (some ("/audio/reply_" ++ env.now ++ ".wav")) topic := by
  have hok : (saveTtsAudio true ttsAllOk).2 = Except.ok () := rfl
  cases hg : env.gen (buildFullPrompt env.systemPrompt topic t) <;>
    simp [voiceChat, hs, ht, hne, htts, hg, hok]

/-- Witness for c4 at a concrete request in which neither TTS engine is
available. -/
theorem c4_witness :
    ({ envBase with tts := ⟨false, false, false, false, false⟩ } : Env).scratch =
        ScratchOutcome.ok ∧
    ({ envBase with tts := ⟨false, false, false, false, false⟩ } : Env).transcription =
        Except.ok "Hallo" ∧
    pyStrip "Hallo" ≠ "" ∧
    (saveTtsAudio true (⟨false, false, false, false, false⟩ : TtsEnv)).2 =
        Except.error "No TTS engine available" ∧
    ∃ rt, (voiceChat { envBase with tts := ⟨false, false, false, false, false⟩ }
          "shopping").response = Response.ok "Hallo" rt none "shopping" ∧
      (voiceChat { { envBase with tts := (⟨false, false, false, false, false⟩ : TtsEnv) } with
          tts := ttsAllOk } "shopping").response =
        Response.ok "Hallo" rt (some ("/audio/reply_" ++ envBase.now ++ ".wav")) "shopping" :=
  ⟨rfl, rfl, by decide, rfl,
   c4 { envBase with tts := ⟨false, false, false, false, false⟩ }
     "shopping" "Hallo" "No TTS engine available" rfl rfl (by decide) rfl⟩

end Tutor

namespace Tutor

/-- Claim C5, counterexample: the Python slice `lines[-limit:]` with
limit = 0 is `lines[0:]`, the whole list, so a log with one record and
limit 0 returns one conversation, more than the claimed "at most N" for
N = 0 (and the claim quantifies over every integer limit). -/
theorem c5_counterexample :
    get_history ["a"] 0 = ["a"] ∧ ¬ ((get_history ["a"] 0).length ≤ 0) := by
  refine ⟨by decide, by decide⟩

/-- Claim C5 (amended): for every POSITIVE integer limit N, the history
endpoint returns at most N conversations and they are exactly the suffix
of most recent records in original append order (stated for a
well-formed log: every line already stripped and non-blank, as produced
by the JSONL writer).  For N ≤ 0 the Python slice `lines[-N:]` instead
returns all but the first -N records. -/
theorem c5_amended (lines : List String) (limit : Int)
    (hpos : 0 < limit)
    (hw : ∀ l ∈ lines, pyStrip l = l ∧ l ≠ "") :
    get_history lines limit = lines.drop (lines.length - limit.toNat) ∧
    (get_history lines limit).length ≤ limit.toNat ∧
    List.IsSuffix (get_history lines limit) lines := by
  have hdrop : ∀ x ∈ lines.drop (lines.length - limit.toNat), pyStrip x = x ∧ x ≠ "" :=
    fun x hx => hw x (List.drop_subset _ _ hx)
  have h1 : get_history lines limit = lines.drop (lines.length - limit.toNat) := by
    rw [get_history, if_pos hpos]
    exact filterMap_strip_id _ hdrop
  refine ⟨h1, ?_, ?_⟩
  · rw [h1, List.length_drop]; omega
  · rw [h1]; exact List.drop_suffix _ _

/-- Witness for c5_amended on a concrete three-record log with limit 2. -/
theorem c5_witness :
    (0 : Int) < 2 ∧
    (∀ l ∈ (["Hallo", "Wie geht es dir", "Danke"] : List String), pyStrip l = l ∧ l ≠ "") ∧
    (get_history ["Hallo", "Wie geht es dir", "Danke"] 2 =
        (["Hallo", "Wie geht es dir", "Danke"] : List String).drop
          ((["Hallo", "Wie geht es dir", "Danke"] : List String).length - (2 : Int).toNat) ∧
      (get_history ["Hallo", "Wie geht es dir", "Danke"] 2).length ≤ (2 : Int).toNat ∧
      List.IsSuffix (get_history ["Hallo", "Wie geht es dir", "Danke"] 2)
        ["Hallo", "Wie geht es dir", "Danke"]) :=
  ⟨by decide, by decide, c5_amended ["Hallo", "Wie geht es dir", "Danke"] 2 (by decide) (by decide)⟩

/-- Claim C6, counterexample: if `audio.read()` or `temp_audio.write`
raises after `NamedTemporaryFile(delete=False)` has created the file,
control jumps to the outer `except` (500 response) without any unlink,
so the scratch file still exists after the request completes. -/
theorem c6_counterexample :
    (voiceChat { envBase with scratch := ScratchOutcome.failAfterCreate "No space left on device" }
      "general conversation").tempExists = true := by
  decide

/-- Claim C6 (amended): the scratch file survives the request exactly
when persisting the uploaded bytes to it raises after the file was
created; on every other exit path (success, empty-transcript 400,
soft dependency failure, transcription re-raise, creation failure) the
file does not exist afterwards. -/
theorem c6_amended (env : Env) (topic : String) :
    (voiceChat env topic).tempExists = true ↔
      ∃ e, env.scratch = ScratchOutcome.failAfterCreate e := by
  rcases env with ⟨s, tr, sp, g, tts, h, now, iso⟩
  cases s <;> cases tr <;> simp [voiceChat] <;>
    (try rename_i t) <;> (try by_cases hpt : pyStrip t = "") <;> simp_all [voiceChat]

/-- Claim C7, counterexample: on an internal engine failure (decode
error), `transcribe_audio` catches the exception and returns the EMPTY
string, not the explicit "[Kein Audio erkannt]" sentinel; the sentinel is
produced only for an empty recognition result (and, per
c1_counterexample, the orchestrator then treats it as ordinary text, not
as a soft failure). -/
theorem c7_counterexample :
    transcribe_audio (Except.error "decode error") = "" ∧
    ("" : String) ≠ "[Kein Audio erkannt]" := by
  refine ⟨rfl, by decide⟩

/-- Claim C7 (amended): on missing engine or decode error,
`transcribe_audio` swallows the exception and returns the empty string,
which the orchestrator treats as a soft failure (400 short-circuit, no
re-raise) distinct from a hard exception; an empty recognition result
instead yields the non-empty sentinel "[Kein Audio erkannt]", which the
orchestrator passes through as ordinary transcribed text. -/
theorem c7_amended (e : String) (env : Env) (topic : String)
    (hs : env.scratch = ScratchOutcome.ok)
    (ht : env.transcription = Except.ok (transcribe_audio (Except.error e))) :
    transcribe_audio (Except.error e) = "" ∧
    transcribe_audio (Except.ok "") = "[Kein Audio erkannt]" ∧
    (voiceChat env topic).response = Response.err 400 "Could not transcribe audio" ∧
    (voiceChat env topic).transcriptionReraised = false := by
  have hz : transcribe_audio (Except.error e) = "" := rfl
  rw [hz] at ht
  refine ⟨hz, by decide, ?_, ?_⟩ <;> simp [voiceChat, hs, ht, show pyStrip "" = "" from rfl]

/-- Witness for c7_amended at a concrete request whose engine raised a
decode error. -/
theorem c7_witness :
    envDecode.scratch = ScratchOutcome.ok ∧
    envDecode.transcription = Except.ok (transcribe_audio (Except.error "decode error")) ∧
    (transcribe_audio (Except.error "decode error") = "" ∧
      transcribe_audio (Except.ok "") = "[Kein Audio erkannt]" ∧
      (voiceChat envDecode "general conversation").response =
        Response.err 400 "Could not transcribe audio" ∧
      (voiceChat envDecode "general conversation").transcriptionReraised = false) :=
  ⟨rfl, rfl, c7_amended "decode error" envDecode "general conversation" rfl rfl⟩

/-- Claim C8 (confirmed): with prefer_offline true, `save_tts_audio`
attempts the offline backend first whenever it is available; if that
first attempt fails and the networked backend is available it is
attempted next; and whenever the call as a whole fails (whichever
engines are absent or raising), the orchestrator catches it and still
returns the 200 payload with tts_url null — synthesis failure never
aborts the response. -/
theorem c8 (t : TtsEnv) :
    (t.pyAvail = true → (saveTtsAudio true t).1.head? = some Backend.offline) ∧
    (t.pyAvail = true → t.pyOk1 = false → t.edgeAvail = true →
      (saveTtsAudio true t).1.take 2 = [Backend.offline, Backend.online]) ∧
    (∀ (env : Env) (topic u m : String),
      env.scratch = ScratchOutcome.ok →
      env.transcription = Except.ok u →
      pyStrip u ≠ "" →
      (saveTtsAudio true env.tts).2 = Except.error m →
      (voiceChat env topic).status = 200 ∧
      ∃ rt, (voiceChat env topic).response = Response.ok u rt none topic) := by
  refine ⟨?_, ?_, ?_⟩
  · intro hp
    cases h1 : t.pyOk1 <;> simp [saveTtsAudio, hp, h1]
  · intro hp h1 he
    simp [saveTtsAudio, savettsTail, hp, h1, he]
    cases h2 : t.edgeOk <;> cases h3 : t.pyOkT <;> simp
  · intro env topic u m hs ht hne htts
    cases hg : env.gen (buildFullPrompt env.systemPrompt topic u) <;>
      simp [voiceChat, Outcome.status, Response.statusCode, hs, ht, hne, htts, hg]

/-- Witness for c8 at a concrete TtsEnv in which both engines are
available but every attempt fails, inside a request whose transcript is
"Hallo". -/
theorem c8_witness :
    (saveTtsAudio true ⟨true, true, false, false, false⟩).1.head? = some Backend.offline ∧
    (saveTtsAudio true ⟨true, true, false, false, false⟩).1.take 2 =
      [Backend.offline, Backend.online] ∧
    ((voiceChat { envBase with tts := ⟨true, true, false, false, false⟩ } "shopping").status = 200 ∧
      ∃ rt, (voiceChat { envBase with tts := ⟨true, true, false, false, false⟩ }
          "shopping").response = Response.ok "Hallo" rt none "shopping") :=
  ⟨(c8 ⟨true, true, false, false, false⟩).1 rfl,
   (c8 ⟨true, true, false, false, false⟩).2.1 rfl rfl rfl,
   (c8 ⟨true, true, false, false, false⟩).2.2
     { envBase with tts := ⟨true, true, false, false, false⟩ }
     "shopping" "Hallo" "pyttsx3 save failed" rfl rfl (by decide) rfl⟩

/-- Claim C9, counterexample: the outer handler returns
`\x7b"error": f"Processing failed: \x7bstr(e)\x7d"\x7d`, so the underlying
exception message ("boom" here) IS included verbatim in the 500 response
body, contradicting the claim that the diagnostic detail is logged but
not returned to the caller. -/
theorem c9_counterexample :
    (voiceChat { envBase with scratch := ScratchOutcome.failAfterCreate "boom" }
      "general conversation").response =
      Response.err 500 ("Processing failed: " ++ "boom") := by
  decide

/-- Claim C9 (amended): every hard infrastructure failure (scratch file
cannot be written, or the transcription stage raises instead of
returning empty) yields a 500 response whose error body is
"Processing failed: " followed by the underlying exception message — the
message is echoed to the caller, and only the traceback/type detail
stays in the server log. -/
theorem c9_amended (env : Env) (topic e : String)
    (h : env.scratch = ScratchOutcome.failBeforeCreate e ∨
         env.scratch = ScratchOutcome.failAfterCreate e ∨
         (env.scratch = ScratchOutcome.ok ∧ env.transcription = Except.error e)) :
    (voiceChat env topic).response = Response.err 500 ("Processing failed: " ++ e) := by
  rcases h with h | h | ⟨h1, h2⟩ <;> simp_all [voiceChat]

/-- Witness for c9_amended at a request whose scratch file cannot be
created at all. -/
theorem c9_witness :
    ({ envBase with scratch := ScratchOutcome.failBeforeCreate "disk full" } : Env).scratch =
      ScratchOutcome.failBeforeCreate "disk full" ∧
    (voiceChat { envBase with scratch := ScratchOutcome.failBeforeCreate "disk full" }
      "general conversation").response =
      Response.err 500 ("Processing failed: " ++ "disk full") :=
  ⟨rfl,
   c9_amended { envBase with scratch := ScratchOutcome.failBeforeCreate "disk full" }
     "general conversation" "disk full" (Or.inl rfl)⟩

/-- Claim C10 (confirmed): `transcribe_audio` is total with respect to
engine errors — for every engine outcome it returns a plain string, and
on an engine exception that string is empty — so whenever the handler
receives its transcript from `transcribe_audio` the transcription
re-raise branch (and hence the 500 path via transcription) is never
taken. -/
theorem c10 (e : String) (env : Env) (topic : String) (r : Except String String) :
    transcribe_audio (Except.error e) = "" ∧
    (env.transcription = Except.ok (transcribe_audio r) →
      (voiceChat env topic).transcriptionReraised = false) := by
  refine ⟨rfl, fun ht => ?_⟩
  rcases env with ⟨s, tr, sp, g, tts, h, now, iso⟩
  cases s <;> simp_all [voiceChat] <;>
    by_cases hpt : pyStrip (transcribe_audio r) = "" <;> simp_all [voiceChat]

/-- Witness for c10: a concrete engine exception yields the empty
string, and a concrete request fed from `transcribe_audio` never takes
the re-raise branch. -/
theorem c10_witness :
    envBase.transcription = Except.ok (transcribe_audio (Except.ok "Hallo")) ∧
    transcribe_audio (Except.error "boom") = "" ∧
    (voiceChat envBase "general conversation").transcriptionReraised = false :=
  ⟨rfl,
   (c10 "boom" envBase "general conversation" (Except.ok "Hallo")).1,
   (c10 "boom" envBase "general conversation" (Except.ok "Hallo")).2 rfl⟩

end Tutor
